import Mathlib

/-!
Verification of the Access Gate of `app.py` (AKHAND-IQ repository).

The gate is a Flask endpoint `gate_access` composed of three stages:
rotating-token verification (`QuantumGuard.verify_rotating_token`),
a duress-triggered vault purge (`QuantumGuard.trigger_self_purge`),
and an intent-classification oracle call (`SaraswatiAI.consult_oracle`).

The shallow embedding below translates those functions.  External effects
are made explicit:
* the HMAC-SHA3-512 hex digest and the SHA3-256 hex digest from Python's
  stdlib `hmac`/`hashlib` are abstract function parameters (`hmacHex`,
  `sha256Hex`) — they are library primitives, not repository code;
* wall-clock time is a `Nat` parameter `now` (Unix seconds) and the string
  `str(time.time())` used for the session id is a parameter `nowStr`;
* the vault directory is a value of type `Vault`:
  `none` = the directory is absent, `some entries` = it exists and holds
  the listed submission files;
* the network interaction of `requests.post(...)` together with
  `res.json()` is a value of type `OracleOutcome`: `failure` covers every
  raised exception (timeout, connection error, unparseable body), and
  `reply r` a parsed JSON object whose optional `response` field is `r`.
-/

/-- `SYSTEM_CORE` constant of `app.py`. -/
def SYSTEM_CORE : String := "ABQM-SOVEREIGN-V100"

/-- `SECRET_MANTRA` constant of `app.py` (the shared secret). -/
def SECRET_MANTRA : String := "BHARAT_SHAKTI_2026_AURUM"

/-- The persisted vault: `none` when the directory `./sovereign_intellect`
is absent, `some entries` when it exists with the given submission files. -/
abbrev Vault : Type := Option (List String)

/-- Python truthiness coercion `user_token or ""` applied to an optional
string: `None` and `""` both yield `""`, any other string is kept. -/
def pyOrEmpty : Option String → String
  | none => ""
  | some s => s

/-- The Python f-string rendering of an optional value: `None` prints as
the four characters `None`, a string prints as itself. -/
def pyStrOpt : Option String → String
  | none => "None"
  | some s => s

/-- `QuantumGuard.verify_rotating_token`: computes
`time_step = int(time.time() / 30)`, the expected digest
`hmac.new(SECRET_MANTRA, str(time_step), sha3_512).hexdigest()`, and
compares with `hmac.compare_digest(user_token or "", expected)`.
The HMAC primitive is the abstract parameter `hmacHex` (key, message);
`compare_digest` on equal-typed strings decides string equality. -/
def verify_rotating_token (hmacHex : String → String → String)
    (now : Nat) (user_token : Option String) : Bool :=
  let time_step := now / 30
  let expected := hmacHex SECRET_MANTRA (toString time_step)
  pyOrEmpty user_token == expected

/-- `QuantumGuard.trigger_self_purge`: if the vault directory exists it is
removed (`shutil.rmtree`) and recreated empty (`os.makedirs`); when absent
nothing happens.  The ack string is always returned. -/
def trigger_self_purge (vault : Vault) : Vault × String :=
  match vault with
  | some _ => (some [], "INTELLECT_NEUTRALIZED")
  | none => (none, "INTELLECT_NEUTRALIZED")

/-- The network interaction of one oracle call, as observed by
`consult_oracle`: `failure` is any exception raised inside the `try`
block (timeout, connection error, body that `res.json()` cannot parse);
`reply r` is a parsed JSON object whose `response` field is `r`
(`none` when the field is missing). -/
inductive OracleOutcome : Type where
  | failure : OracleOutcome
  | reply : Option String → OracleOutcome
deriving DecidableEq, Repr

/-- The `prompts` dictionary of `SaraswatiAI.consult_oracle`, read with
`prompts.get(prompt_type, "")`. -/
def oracle_prompt (prompt_type : String) (input_data : String) : String :=
  if prompt_type = "login" then
    "Analyze this login intent: \x27" ++ input_data ++
      "\x27. Is it for the benefit of humanity? Reply \x27VALID\x27 or \x27MALICIOUS\x27."
  else if prompt_type = "research" then
    "Analyze this research summary: \x27" ++ input_data ++
      "\x27. Predict its 50-year global impact score (0-1) and ethical alignment. Reply in JSON."
  else if prompt_type = "canvas" then
    "A scientist has sketched a formula: \x27" ++ input_data ++
      "\x27. Provide a 2-sentence advanced insight and verify its physical validity."
  else ""

/-- `SaraswatiAI.consult_oracle`: posts `oracle_prompt prompt_type
input_data` to the LLM endpoint with a 3-second timeout; on success
returns `res.json().get("response", "VALIDATION_OFFLINE")`; on any
exception returns the failsafe `"VALID"`. -/
def consult_oracle (prompt_type : String) (input_data : String)
    (outcome : OracleOutcome) : String :=
  let _prompt := oracle_prompt prompt_type input_data
  match outcome with
  | OracleOutcome.failure => "VALID"
  | OracleOutcome.reply r => r.getD "VALIDATION_OFFLINE"

/-- The JSON body of a `/gate/access` request: each `data.get(...)` field
may be absent. -/
structure GateRequest where
  token : Option String
  bio_state : Option String
  intent : Option String
deriving DecidableEq, Repr

/-- The JSON body returned by `gate_access` (`jsonify` fields). -/
structure GateResponse where
  status : String
  msg : Option String
  node : Option String
  session : Option String
deriving DecidableEq, Repr

/-- Result of one `gate_access` call: response body, HTTP status code,
the vault afterwards, and whether `trigger_self_purge` /
`consult_oracle` were invoked. -/
structure GateOutcome where
  response : GateResponse
  code : Nat
  vaultAfter : Vault
  purgeCalled : Bool
  oracleCalled : Bool

/-- The ASCII uppercase of a string (`str.upper()` on ASCII text) —
`ethics.upper()` in the gate — character by character. -/
def pyUpper (s : String) : String := String.mk (s.data.map Char.toUpper)

/-- The Python membership test `"MALICIOUS" in ethics.upper()`:
`"MALICIOUS"` occurs as a contiguous substring of the uppercased text. -/
def containsMalicious (ethics : String) : Bool :=
  decide ("MALICIOUS".data <:+: (pyUpper ethics).data)

/-- The `/gate/access` handler `gate_access` of `app.py`:

1. `verify_rotating_token(data.get("token"))` false → 403
   `{"status": "DENIED", "msg": "Identity Desync"}`;
2. `data.get("bio_state") == "DURESS"` → `trigger_self_purge()`, then 410
   `{"status": "PURGED", "msg": "Neural Distress. Vault Sanitized."}`;
3. `ethics = consult_oracle("login", data.get("intent"))`; if
   `"MALICIOUS" in ethics.upper()` → 401
   `{"status": "FORBIDDEN", "msg": "Intent Violates Dharma"}`;
4. otherwise 200 with the node label and the session id
   `sha3_256(str(time.time())).hexdigest()[:12].upper()`. -/
def gate_access (hmacHex : String → String → String)
    (sha256Hex : String → String) (now : Nat) (nowStr : String)
    (vault : Vault) (oracle : OracleOutcome) (data : GateRequest) :
    GateOutcome :=
  if verify_rotating_token hmacHex now data.token = false then
    { response := { status := "DENIED", msg := some "Identity Desync",
                    node := none, session := none },
      code := 403, vaultAfter := vault,
      purgeCalled := false, oracleCalled := false }
  else if data.bio_state = some "DURESS" then
    let purged := trigger_self_purge vault
    { response := { status := "PURGED",
                    msg := some "Neural Distress. Vault Sanitized.",
                    node := none, session := none },
      code := 410, vaultAfter := purged.fst,
      purgeCalled := true, oracleCalled := false }
  else
    let ethics := consult_oracle "login" (pyStrOpt data.intent) oracle
    if containsMalicious ethics = true then
      { response := { status := "FORBIDDEN",
                      msg := some "Intent Violates Dharma",
                      node := none, session := none },
        code := 401, vaultAfter := vault,
        purgeCalled := false, oracleCalled := true }
    else
      { response := { status := "AUTHORIZED", msg := none,
                      node := some SYSTEM_CORE,
                      session := some (pyUpper ((sha256Hex nowStr).take 12)) },
        code := 200, vaultAfter := vault,
        purgeCalled := false, oracleCalled := true }

/-! ## Theorems -/

/-- C3: `verify_rotating_token` returns true iff the candidate token is
present and equals the digest produced by the HMAC primitive on the
shared secret and the decimal string of `now / 30`; an absent candidate
yields false (a definite non-match, never an error), and any other
string yields false.  The hypothesis records that a hex digest is never
the empty string. -/
theorem verify_iff_expected (hmacHex : String → String → String) (now : Nat)
    (h : hmacHex SECRET_MANTRA (toString (now / 30)) ≠ "") :
    (∀ cand : Option String,
      verify_rotating_token hmacHex now cand = true ↔
        cand = some (hmacHex SECRET_MANTRA (toString (now / 30)))) ∧
    verify_rotating_token hmacHex now none = false := by
  constructor
  · intro cand
    cases cand with
    | none =>
      simp only [verify_rotating_token, pyOrEmpty, beq_iff_eq]
      constructor
      · intro he
        exact absurd he.symm h
      · intro he
        exact absurd he (by simp)
    | some s =>
      simp only [verify_rotating_token, pyOrEmpty, beq_iff_eq,
        Option.some.injEq]
  · simp only [verify_rotating_token, pyOrEmpty, beq_iff_eq]
    exact Bool.decide_false (fun he => h he.symm)

/-- Witness for C3 at a concrete digest function and time. -/
theorem verify_iff_expected_witness :
    ((fun _ _ : String => "AB") SECRET_MANTRA (toString ((0 : Nat) / 30)) ≠ "") ∧
    verify_rotating_token (fun _ _ : String => "AB") 0 (some "AB") = true ∧
    verify_rotating_token (fun _ _ : String => "AB") 0 none = false := by
  refine ⟨by decide, ?_, ?_⟩
  · exact ((verify_iff_expected (fun _ _ => "AB") 0 (by decide)).1
      (some "AB")).mpr rfl
  · exact (verify_iff_expected (fun _ _ => "AB") 0 (by decide)).2

/-- C1: whenever token verification fails, `gate_access` answers
`DENIED` / 403 / "Identity Desync", leaves the vault untouched, and
invokes neither the purge nor the oracle — whatever `bio_state` and
`intent` contain. -/
theorem gate_invalid_token_denied (hmacHex : String → String → String)
    (sha256Hex : String → String) (now : Nat) (nowStr : String)
    (vault : Vault) (oracle : OracleOutcome) (data : GateRequest)
    (h : verify_rotating_token hmacHex now data.token = false) :
    gate_access hmacHex sha256Hex now nowStr vault oracle data =
      { response := { status := "DENIED", msg := some "Identity Desync",
                      node := none, session := none },
        code := 403, vaultAfter := vault,
        purgeCalled := false, oracleCalled := false } := by
  simp only [gate_access, h, if_pos]

/-- Witness for C1: invalid token with `bio_state = "DURESS"` still only
yields `DENIED` and leaves the vault alone. -/
theorem gate_invalid_token_denied_witness :
    gate_access (fun _ _ : String => "E") (fun _ : String => "S") 0 "0"
        (some ["v1"]) OracleOutcome.failure
        { token := none, bio_state := some "DURESS", intent := some "x" } =
      { response := { status := "DENIED", msg := some "Identity Desync",
                      node := none, session := none },
        code := 403, vaultAfter := some ["v1"],
        purgeCalled := false, oracleCalled := false } :=
  gate_invalid_token_denied (fun _ _ => "E") (fun _ => "S") 0 "0"
    (some ["v1"]) OracleOutcome.failure
    { token := none, bio_state := some "DURESS", intent := some "x" }
    (by decide)

/-- C2: with a verified token and `bio_state = "DURESS"`, `gate_access`
purges the (existing) vault — leaving it empty — and answers
`PURGED` / 410 / "Neural Distress. Vault Sanitized." without ever
consulting the oracle, whatever the intent field contains. -/
theorem gate_duress_purged (hmacHex : String → String → String)
    (sha256Hex : String → String) (now : Nat) (nowStr : String)
    (entries : List String) (oracle : OracleOutcome) (data : GateRequest)
    (hv : verify_rotating_token hmacHex now data.token = true)
    (hb : data.bio_state = some "DURESS") :
    gate_access hmacHex sha256Hex now nowStr (some entries) oracle data =
      { response := { status := "PURGED",
                      msg := some "Neural Distress. Vault Sanitized.",
                      node := none, session := none },
        code := 410, vaultAfter := some [],
        purgeCalled := true, oracleCalled := false } := by
  simp only [gate_access, hv, hb, Bool.true_eq_false, if_false, if_pos,
    trigger_self_purge]

/-- Witness for C2 at a concrete request with a malicious-looking intent. -/
theorem gate_duress_purged_witness :
    gate_access (fun _ _ : String => "E") (fun _ : String => "S") 0 "0"
        (some ["v1", "v2"]) (OracleOutcome.reply (some "MALICIOUS"))
        { token := some "E", bio_state := some "DURESS",
          intent := some "destroy" } =
      { response := { status := "PURGED",
                      msg := some "Neural Distress. Vault Sanitized.",
                      node := none, session := none },
        code := 410, vaultAfter := some [],
        purgeCalled := true, oracleCalled := false } :=
  gate_duress_purged (fun _ _ => "E") (fun _ => "S") 0 "0" ["v1", "v2"]
    (OracleOutcome.reply (some "MALICIOUS"))
    { token := some "E", bio_state := some "DURESS", intent := some "destroy" }
    (by decide) rfl

/-- C7: with a verified token and `bio_state ≠ "DURESS"`, the gate calls
the oracle on the intent; if the (uppercased) classification text
contains the substring `MALICIOUS` it answers
`FORBIDDEN` / 401 / "Intent Violates Dharma", otherwise
`AUTHORIZED` / 200 with the node label and the session id; the vault is
untouched either way. -/
theorem gate_intent_check (hmacHex : String → String → String)
    (sha256Hex : String → String) (now : Nat) (nowStr : String)
    (vault : Vault) (oracle : OracleOutcome) (data : GateRequest)
    (hv : verify_rotating_token hmacHex now data.token = true)
    (hb : data.bio_state ≠ some "DURESS") :
    (containsMalicious (consult_oracle "login" (pyStrOpt data.intent) oracle)
        = true →
      gate_access hmacHex sha256Hex now nowStr vault oracle data =
        { response := { status := "FORBIDDEN",
                        msg := some "Intent Violates Dharma",
                        node := none, session := none },
          code := 401, vaultAfter := vault,
          purgeCalled := false, oracleCalled := true }) ∧
    (containsMalicious (consult_oracle "login" (pyStrOpt data.intent) oracle)
        = false →
      gate_access hmacHex sha256Hex now nowStr vault oracle data =
        { response := { status := "AUTHORIZED", msg := none,
                        node := some SYSTEM_CORE,
                        session :=
                          some (pyUpper ((sha256Hex nowStr).take 12)) },
          code := 200, vaultAfter := vault,
          purgeCalled := false, oracleCalled := true }) := by
  constructor
  · intro hm
    simp only [gate_access, hv, hb, Bool.true_eq_false, if_false, hm, if_pos]
  · intro hm
    simp only [gate_access, hv, hb, Bool.true_eq_false, if_false, hm,
      Bool.false_eq_true]

/-- Witness for C7: an oracle reply reading `"malicious act"` (lower
case) is rejected as `FORBIDDEN` / 401. -/
theorem gate_intent_check_witness :
    gate_access (fun _ _ : String => "E") (fun _ : String => "S") 0 "0"
        (some []) (OracleOutcome.reply (some "malicious act"))
        { token := some "E", bio_state := some "NORMAL",
          intent := some "hack" } =
      { response := { status := "FORBIDDEN",
                      msg := some "Intent Violates Dharma",
                      node := none, session := none },
        code := 401, vaultAfter := some [],
        purgeCalled := false, oracleCalled := true } :=
  (gate_intent_check (fun _ _ => "E") (fun _ => "S") 0 "0" (some [])
      (OracleOutcome.reply (some "malicious act"))
      { token := some "E", bio_state := some "NORMAL", intent := some "hack" }
      (by decide) (by decide)).1 (by decide)

/-- C8: `trigger_self_purge` is idempotent — applying it to the state it
produced changes nothing (ack included) — and on an already-empty store
it is a no-op with the same observable end state. -/
theorem purge_idempotent (vault : Vault) :
    trigger_self_purge (trigger_self_purge vault).fst =
      trigger_self_purge vault ∧
    (trigger_self_purge (some ([] : List String))).fst = some [] := by
  cases vault <;> simp [trigger_self_purge]

/-- C10: the gate mutates the vault only on the exact-`"DURESS"` path:
the purge runs iff the token verifies and `bio_state` is literally
`some "DURESS"`; whenever the purge does not run — and on every
non-`PURGED` outcome — the vault is unchanged; with a verified token and
any other `bio_state` (absent, `"duress"`, …) the pipeline proceeds to
the oracle call. -/
theorem gate_vault_frame (hmacHex : String → String → String)
    (sha256Hex : String → String) (now : Nat) (nowStr : String)
    (vault : Vault) (oracle : OracleOutcome) (data : GateRequest) :
    ((gate_access hmacHex sha256Hex now nowStr vault oracle data).purgeCalled
        = true ↔
      (verify_rotating_token hmacHex now data.token = true ∧
        data.bio_state = some "DURESS")) ∧
    ((gate_access hmacHex sha256Hex now nowStr vault oracle data).purgeCalled
        = false →
      (gate_access hmacHex sha256Hex now nowStr vault oracle data).vaultAfter
        = vault) ∧
    ((gate_access hmacHex sha256Hex now nowStr vault oracle
        data).response.status ≠ "PURGED" →
      (gate_access hmacHex sha256Hex now nowStr vault oracle data).vaultAfter
        = vault) ∧
    ((verify_rotating_token hmacHex now data.token = true ∧
        data.bio_state ≠ some "DURESS") →
      (gate_access hmacHex sha256Hex now nowStr vault oracle
        data).oracleCalled = true) := by
  by_cases hv : verify_rotating_token hmacHex now data.token = true
  · by_cases hb : data.bio_state = some "DURESS"
    · simp only [gate_access, hv, hb, Bool.true_eq_false, if_false, if_pos]
      refine ⟨by simp, by simp, by simp, ?_⟩
      rintro ⟨-, hb2⟩
      exact absurd rfl hb2
    · cases hm : containsMalicious
          (consult_oracle "login" (pyStrOpt data.intent) oracle) <;>
        simp [gate_access, hv, hb, hm]
  · have hv2 : verify_rotating_token hmacHex now data.token = false := by
      simpa using hv
    simp [gate_access, hv2, hv]

/-- Witness for C10: on a concrete verified `DURESS` request the purge
fires, and on a lower-case `"duress"` request it does not and the vault
is unchanged. -/
theorem gate_vault_frame_witness :
    (gate_access (fun _ _ : String => "E") (fun _ : String => "S") 0 "0"
        (some ["v1"]) OracleOutcome.failure
        { token := some "E", bio_state := some "DURESS",
          intent := none }).purgeCalled = true ∧
    (gate_access (fun _ _ : String => "E") (fun _ : String => "S") 0 "0"
        (some ["v1"]) OracleOutcome.failure
        { token := some "E", bio_state := some "duress",
          intent := none }).vaultAfter = some ["v1"] := by
  constructor
  · exact (gate_vault_frame (fun _ _ => "E") (fun _ => "S") 0 "0"
      (some ["v1"]) OracleOutcome.failure
      { token := some "E", bio_state := some "DURESS", intent := none }).1.mpr
      ⟨by decide, rfl⟩
  · exact (gate_vault_frame (fun _ _ => "E") (fun _ => "S") 0 "0"
      (some ["v1"]) OracleOutcome.failure
      { token := some "E", bio_state := some "duress",
        intent := none }).2.2.1 (by decide)

/-- C4 counterexample: the fallback is not one single fixed value across
all failure kinds — an exception (timeout, connection error, unparseable
body) yields `"VALID"`, while a parsed reply missing the `response`
field (a malformed reply) yields `"VALIDATION_OFFLINE"`, and the two
differ. -/
theorem oracle_fallback_not_unique :
    consult_oracle "login" "study" OracleOutcome.failure = "VALID" ∧
    consult_oracle "login" "study" (OracleOutcome.reply none) =
      "VALIDATION_OFFLINE" ∧
    consult_oracle "login" "study" OracleOutcome.failure ≠
      consult_oracle "login" "study" (OracleOutcome.reply none) := by
  refine ⟨rfl, rfl, by decide⟩

/-- C4 amended: on every raised failure (timeout, connection error,
unparseable body) `consult_oracle` returns the fixed failsafe `"VALID"`;
a parsed reply missing the `response` field instead yields
`"VALIDATION_OFFLINE"`; both fallbacks are free of `MALICIOUS`, so the
gate treats either as benign, and neither failure propagates as an
error. -/
theorem oracle_fallback_benign (prompt_type input_data : String) :
    consult_oracle prompt_type input_data OracleOutcome.failure = "VALID" ∧
    consult_oracle prompt_type input_data (OracleOutcome.reply none) =
      "VALIDATION_OFFLINE" ∧
    containsMalicious
      (consult_oracle prompt_type input_data OracleOutcome.failure) = false ∧
    containsMalicious
      (consult_oracle prompt_type input_data (OracleOutcome.reply none)) =
      false := by
  refine ⟨rfl, rfl, ?_, ?_⟩
  · show containsMalicious "VALID" = false
    decide
  · show containsMalicious "VALIDATION_OFFLINE" = false
    decide

/-- C5 counterexample: starting from an absent store,
`trigger_self_purge` is a no-op — afterwards the store still does not
exist, in particular it is not the existing empty store. -/
theorem purge_absent_store_not_recreated :
    (trigger_self_purge none).fst = none ∧
    (trigger_self_purge none).fst ≠ some [] := by
  refine ⟨rfl, by simp [trigger_self_purge]⟩

/-- C5 amended: when the store exists before the call, after
`trigger_self_purge` it exists and is empty (whatever it contained);
when the store is absent before the call, the purge leaves it absent. -/
theorem purge_existing_store_emptied (entries : List String) :
    (trigger_self_purge (some entries)).fst = some [] ∧
    (trigger_self_purge none).fst = none := by
  exact ⟨rfl, rfl⟩

/-- C6 counterexample: a malformed request with every field missing is
not rejected up front — it enters the state machine and produces exactly
the authentication-failure outcome `DENIED` / 403, not a distinct one. -/
theorem malformed_request_not_distinct :
    (gate_access (fun _ _ : String => "E") (fun _ : String => "S") 0 "0"
        (some []) OracleOutcome.failure
        { token := none, bio_state := none,
          intent := none }).response.status = "DENIED" ∧
    (gate_access (fun _ _ : String => "E") (fun _ : String => "S") 0 "0"
        (some []) OracleOutcome.failure
        { token := none, bio_state := none, intent := none }).code = 403 := by
  exact ⟨rfl, rfl⟩

/-- C6 amended: `gate_access` performs no malformed-request check —
absent fields flow into the state machine as `None`: a request missing
the token gets the authentication-failure outcome `DENIED` / 403 itself
(no purge, no oracle call, vault unchanged), and a request carrying the
valid token but missing `bio_state` and `intent` proceeds through the
pipeline to the intent check. -/
theorem malformed_request_enters_machine (hmacHex : String → String → String)
    (sha256Hex : String → String) (now : Nat) (nowStr : String)
    (vault : Vault) (oracle : OracleOutcome) (bs it : Option String)
    (h : hmacHex SECRET_MANTRA (toString (now / 30)) ≠ "") :
    gate_access hmacHex sha256Hex now nowStr vault oracle
        { token := none, bio_state := bs, intent := it } =
      { response := { status := "DENIED", msg := some "Identity Desync",
                      node := none, session := none },
        code := 403, vaultAfter := vault,
        purgeCalled := false, oracleCalled := false } ∧
    (gate_access hmacHex sha256Hex now nowStr vault oracle
        { token := some (hmacHex SECRET_MANTRA (toString (now / 30))),
          bio_state := none, intent := none }).oracleCalled = true := by
  constructor
  · have hv : verify_rotating_token hmacHex now none = false :=
      (verify_iff_expected hmacHex now h).2
    simp only [gate_access, hv, if_pos]
  · have hv : verify_rotating_token hmacHex now
        (some (hmacHex SECRET_MANTRA (toString (now / 30)))) = true :=
      ((verify_iff_expected hmacHex now h).1 _).mpr rfl
    cases hm : containsMalicious (consult_oracle "login" (pyStrOpt none)
        oracle) <;>
      simp [gate_access, hv, hm]

/-- Witness for C6 (amended) at a concrete digest function: the
token-less request lands on `DENIED` / 403 with the vault intact. -/
theorem malformed_request_enters_machine_witness :
    gate_access (fun _ _ : String => "E") (fun _ : String => "S") 0 "0"
        (some ["v1"]) OracleOutcome.failure
        { token := none, bio_state := some "NORMAL", intent := some "x" } =
      { response := { status := "DENIED", msg := some "Identity Desync",
                      node := none, session := none },
        code := 403, vaultAfter := some ["v1"],
        purgeCalled := false, oracleCalled := false } :=
  (malformed_request_enters_machine (fun _ _ => "E") (fun _ => "S") 0 "0"
      (some ["v1"]) OracleOutcome.failure (some "NORMAL") (some "x")
      (by decide)).1
